import Mathlib

/-
Shallow embedding of the scl vector library (src/scl.hpp).

A vector<T, N> is modelled by its lane storage, a total function
Nat → α read at indices 0 .. N-1 (the C array vec_type); the C-style
for loops of the source become folds over List.range n, executed in
ascending index order exactly as the loops run. Machine integers are
modelled by Int with explicit reduction modulo 2^32 where the source
converts to the 32-bit unsigned type u32. Fallible operations
(integer division, whose divisor may be zero) return Option.
-/

namespace scl

/-- A C-style for loop: runs body at i = 0, 1, ..., n-1 in ascending
order, threading the loop state. -/
def cppFor {σ : Type} (n : Nat) (body : Nat → σ → σ) (s : σ) : σ :=
  (List.range n).foldl (fun s i => body i s) s

/-- An array store vec_type[i] = x on lane storage. -/
def setLane {α : Type} (r : Nat → α) (i : Nat) (x : α) : Nat → α :=
  fun j => if j = i then x else r j

/-- The common loop shape of the source: for (i = 0; i < N; ++i)
result.vec_type[i] = g(i), starting from the default-constructed
(hence arbitrary) contents r0 of the result vector. -/
def fillLoop {α : Type} (n : Nat) (g : Nat → α) (r0 : Nat → α) : Nat → α :=
  cppFor n (fun i r => setLane r i (g i)) r0

theorem cppFor_succ {σ : Type} (n : Nat) (body : Nat → σ → σ) (s : σ) :
    cppFor (n + 1) body s = body n (cppFor n body s) := by
  simp [cppFor, List.range_succ]

theorem fillLoop_get {α : Type} (n : Nat) (g : Nat → α) (r0 : Nat → α)
    (i : Nat) : fillLoop n g r0 i = if i < n then g i else r0 i := by
  induction n with
  | zero => simp [fillLoop, cppFor]
  | succ n ih =>
      have h : fillLoop (n + 1) g r0
          = setLane (fillLoop n g r0) n (g n) :=
        cppFor_succ n _ r0
      rw [h]
      by_cases hi : i = n
      · subst hi
        simp [setLane]
      · simp only [setLane, if_neg hi, ih]
        rcases Nat.lt_trichotomy i n with hlt | heq | hgt
        · rw [if_pos hlt, if_pos (Nat.lt_succ_of_lt hlt)]
        · exact absurd heq hi
        · rw [if_neg (Nat.not_lt.mpr hgt), if_neg (by omega)]

/-! Elementwise arithmetic operators (src/scl.hpp lines 876-1016): each
loops over the lanes and writes the scalar result into a fresh result
vector. -/

/-- Vector addition, operator+(vector, vector). -/
def vecAdd {α : Type} [Add α] (n : Nat) (a b r0 : Nat → α) : Nat → α :=
  fillLoop n (fun i => a i + b i) r0

/-- Vector subtraction, operator-(vector, vector). -/
def vecSub {α : Type} [Sub α] (n : Nat) (a b r0 : Nat → α) : Nat → α :=
  fillLoop n (fun i => a i - b i) r0

/-- Vector multiplication, operator*(vector, vector). -/
def vecMul {α : Type} [Mul α] (n : Nat) (a b r0 : Nat → α) : Nat → α :=
  fillLoop n (fun i => a i * b i) r0

/-- Vector division, operator/(vector, vector), over an element type
whose division is total on its arithmetic domain. -/
def vecDiv {α : Type} [Div α] (n : Nat) (a b r0 : Nat → α) : Nat → α :=
  fillLoop n (fun i => a i / b i) r0

/-- Integer lane division a[i] / b[i] as C++ evaluates it: the quotient
truncated toward zero, undefined (modelled none) when the divisor is
zero. -/
def intDivC (a b : Int) : Option Int :=
  if b = 0 then none else some (a.tdiv b)

/-- Vector division for an integral element type, every lane carried in
Option: operator/(vector, vector) with the lane division intDivC. -/
def vecDivZ (n : Nat) (a b : Nat → Int) (r0 : Nat → Option Int) :
    Nat → Option Int :=
  fillLoop n (fun i => intDivC (a i) (b i)) r0

/-! Comparison operators (src/scl.hpp lines 1072-1137): each loop
returns false as soon as one lane fails its test, and true after the
loop, so the result is a single Bool, true exactly when every lane
passes. The early-exit loop over a pure test is List.all over the
index range. -/

/-- operator==: lane test is the negation of vec_type mismatch. -/
def vecEq {α : Type} [DecidableEq α] (n : Nat) (a b : Nat → α) : Bool :=
  (List.range n).all fun i => !decide (a i ≠ b i)

/-- operator<: returns false when some lane has a[i] >= b[i]. -/
def vecLt {α : Type} [LinearOrder α] (n : Nat) (a b : Nat → α) : Bool :=
  (List.range n).all fun i => !decide (b i ≤ a i)

/-- operator>: returns false when some lane has a[i] <= b[i]. -/
def vecGt {α : Type} [LinearOrder α] (n : Nat) (a b : Nat → α) : Bool :=
  (List.range n).all fun i => !decide (a i ≤ b i)

/-- operator<=: returns false when some lane has a[i] > b[i]. -/
def vecLe {α : Type} [LinearOrder α] (n : Nat) (a b : Nat → α) : Bool :=
  (List.range n).all fun i => !decide (b i < a i)

/-- operator>=: returns false when some lane has a[i] < b[i]. -/
def vecGe {α : Type} [LinearOrder α] (n : Nat) (a b : Nat → α) : Bool :=
  (List.range n).all fun i => !decide (a i < b i)

/-! Reductions (member functions, src/scl.hpp lines 483-524), on
integer lanes. -/

/-- Member min: result starts at lane 0, each later lane replaces it
when strictly smaller. -/
def vector.min (n : Nat) (v : Nat → Int) : Int :=
  cppFor (n - 1) (fun k r => if v (k + 1) < r then v (k + 1) else r) (v 0)

/-- Member max: result starts at lane 0, each later lane replaces it
when strictly larger. -/
def vector.max (n : Nat) (v : Nat → Int) : Int :=
  cppFor (n - 1) (fun k r => if r < v (k + 1) then v (k + 1) else r) (v 0)

/-- Member horizontal_sum: result starts at 0 and accumulates each lane. -/
def vector.horizontal_sum (n : Nat) (v : Nat → Int) : Int :=
  cppFor n (fun i r => r + v i) 0

/-- Modelled from the spec: the product reduction named by spec item 8(d)
is not present in src (it lives in the other header variants of this
repository); per the spec it is the scalar product of the lanes, the
multiplicative analogue of horizontal_sum. -/
def vector.horizontal_product (n : Nat) (v : Nat → Int) : Int :=
  cppFor n (fun i r => r * v i) 1

/-! Whole-vector selection (non-member min/max, src/scl.hpp
lines 1302-1313): a ternary on the aggregate comparison. -/

/-- Non-member min(a, b) = (a < b) ? a : b. -/
def min {α : Type} [LinearOrder α] (n : Nat) (a b : Nat → α) : Nat → α :=
  if vecLt n a b then a else b

/-- Non-member max(a, b) = (a > b) ? a : b. -/
def max {α : Type} [LinearOrder α] (n : Nat) (a b : Nat → α) : Nat → α :=
  if vecGt n a b then a else b

/-! Scalar element access (src/scl.hpp lines 354-356 and 414-417). -/

/-- The C++ conversion of a (signed or wide) integer value to the
32-bit unsigned type u32: reduction modulo 2^32 into [0, 2^32). -/
def toU32 (x : Int) : Nat :=
  (x % 4294967296).toNat

/-- Member extract_element(const u64&) const: returns vec_type[index]
with declared return type u32, so the lane value passes through the
integer-to-u32 conversion. No bounds check is performed; the model's
total lane function stands for the raw array read. -/
def extract_element (v : Nat → Int) (index : Nat) : Nat :=
  toU32 (v index)

/-- operator[](const u32&) const: forwards to the const
extract_element overload and widens its u32 result to f64, which is
exact, so the value is the u32 result itself. -/
def opIndex (v : Nat → Int) (index : Nat) : Int :=
  (extract_element v index : Int)

/-! Array construction and conversion (src/scl.hpp lines 310-315 and
369-375). -/

/-- Constructor vector(const std::array<T, N>&): copies each array
element into the corresponding lane of the fresh vector. -/
def fromArray {α : Type} (n : Nat) (arr r0 : Nat → α) : Nat → α :=
  fillLoop n arr r0

/-- Conversion operator std::array<T, N>(): copies each lane into the
corresponding element of a fresh std::array. -/
def toStdArray {α : Type} (n : Nat) (v a0 : Nat → α) : Nat → α :=
  fillLoop n v a0

/-- Modelled from the spec: the index-parameterized lane rearrangement
operations (permute/shuffle) of spec items 4 and 8(c) are not present
in src (they live in the other header variants of this repository);
per the spec, lane i of the result is lane idx(i) of the input, with
the index sequence fixed at compile time. -/
def permute {α : Type} (n : Nat) (idx : Nat → Nat) (v r0 : Nat → α) :
    Nat → α :=
  fillLoop n (fun i => v (idx i)) r0

/-! 4D cross product (src/scl.hpp lines 1580-1589): reads the lanes of
both arguments through operator[], combines them, and builds the
result with the four-element constructor. Lane arithmetic is exact. -/

/-- The four-element constructor vector(e0, e1, e2, e3): writes lane 0
then lanes 1-3 by recursion_construct. -/
def mkVec4 (e0 e1 e2 e3 : Int) : Nat → Int :=
  fun i => [e0, e1, e2, e3].getD i 0

/-- cross_product(const vector<T,4>&, const vector<T,4>&). -/
def cross_product (a b : Nat → Int) : Nat → Int :=
  mkVec4
    (opIndex a 1 * opIndex b 2 - opIndex a 2 * opIndex b 1)
    (opIndex a 2 * opIndex b 0 - opIndex a 0 * opIndex b 2)
    (opIndex a 0 * opIndex b 1 - opIndex a 1 * opIndex b 0)
    (opIndex a 3 * opIndex b 3 - opIndex a 3 * opIndex b 3)

/-! Concrete lane storages used to instantiate the theorems. -/

/-- Lane storage holding the given literal lanes (and 0 beyond them). -/
def lanes (l : List Int) : Nat → Int :=
  fun i => l.getD i 0

/-- All-zero lane storage, standing for arbitrary fresh contents. -/
def zeroLanes : Nat → Int :=
  fun _ => 0

/-- All-(some 0) lane storage for Option-carried results. -/
def someZeroLanes : Nat → Option Int :=
  fun _ => some 0

/-! Characterizations of the aggregate Bool comparisons, shared by the
claims about comparison operators and about min/max selection. -/

theorem vecEq_iff {α : Type} [DecidableEq α] (n : Nat) (a b : Nat → α) :
    vecEq n a b = true ↔ ∀ i < n, a i = b i := by
  simp [vecEq, List.all_eq_true]

theorem vecLt_iff {α : Type} [LinearOrder α] (n : Nat) (a b : Nat → α) :
    vecLt n a b = true ↔ ∀ i < n, a i < b i := by
  simp [vecLt, List.all_eq_true, not_le]

theorem vecGt_iff {α : Type} [LinearOrder α] (n : Nat) (a b : Nat → α) :
    vecGt n a b = true ↔ ∀ i < n, b i < a i := by
  simp [vecGt, List.all_eq_true, not_le]

theorem vecLe_iff {α : Type} [LinearOrder α] (n : Nat) (a b : Nat → α) :
    vecLe n a b = true ↔ ∀ i < n, a i ≤ b i := by
  simp [vecLe, List.all_eq_true, not_lt]

theorem vecGe_iff {α : Type} [LinearOrder α] (n : Nat) (a b : Nat → α) :
    vecGe n a b = true ↔ ∀ i < n, b i ≤ a i := by
  simp [vecGe, List.all_eq_true, not_lt]

/-- Claim C1: for every element type, lane count n, vectors a and b and
lane i < n, the elementwise arithmetic operators return the per-lane
scalar results: (a+b)[i] = a[i]+b[i], (a-b)[i] = a[i]-b[i],
(a*b)[i] = a[i]*b[i] and (a/b)[i] = a[i]/b[i], division taken in the
element type's arithmetic domain. -/
theorem C1_elementwise_arithmetic {α : Type} [Add α] [Sub α] [Mul α]
    [Div α] (n : Nat) (a b r0 : Nat → α) (i : Nat) (h : i < n) :
    vecAdd n a b r0 i = a i + b i ∧
    vecSub n a b r0 i = a i - b i ∧
    vecMul n a b r0 i = a i * b i ∧
    vecDiv n a b r0 i = a i / b i := by
  refine ⟨?_, ?_, ?_, ?_⟩ <;>
    simp [vecAdd, vecSub, vecMul, vecDiv, fillLoop_get, h]

/-- Witness for C1 at the 2-lane integer vectors {3, 5} and {4, 7}. -/
theorem C1_elementwise_arithmetic_witness :
    vecAdd 2 (lanes [3, 5]) (lanes [4, 7]) zeroLanes 0 = 7 ∧
    vecSub 2 (lanes [3, 5]) (lanes [4, 7]) zeroLanes 0 = -1 ∧
    vecMul 2 (lanes [3, 5]) (lanes [4, 7]) zeroLanes 1 = 35 ∧
    vecDiv 2 (lanes [3, 5]) (lanes [4, 7]) zeroLanes 1 = 0 := by
  have h0 := C1_elementwise_arithmetic 2 (lanes [3, 5]) (lanes [4, 7])
    zeroLanes 0 (by decide)
  have h1 := C1_elementwise_arithmetic 2 (lanes [3, 5]) (lanes [4, 7])
    zeroLanes 1 (by decide)
  exact ⟨h0.1.trans (by decide), h0.2.1.trans (by decide),
    h1.2.2.1.trans (by decide), h1.2.2.2.trans (by decide)⟩

/-- Claim C3 counterexample: the comparison operators do not produce a
per-lane mask. At a = {1, 5}, b = {2, 3}, the source operator< returns
the single Bool false although the scalar comparison at lane 0 holds,
so no lane of the result records a[0] < b[0]. -/
theorem C3_no_per_lane_mask :
    vecLt 2 (lanes [1, 5]) (lanes [2, 3]) = false ∧
    lanes [1, 5] 0 < lanes [2, 3] 0 := by
  decide

/-- Claim C3 as amended: each comparison operator returns one Bool that
aggregates all lanes: equality is true iff every lane compares equal,
and each ordering operator is true iff its scalar comparison holds in
every lane. -/
theorem C3_aggregate_bool_comparisons {α : Type} [LinearOrder α]
    [DecidableEq α] (n : Nat) (a b : Nat → α) :
    (vecEq n a b = true ↔ ∀ i < n, a i = b i) ∧
    (vecLt n a b = true ↔ ∀ i < n, a i < b i) ∧
    (vecGt n a b = true ↔ ∀ i < n, b i < a i) ∧
    (vecLe n a b = true ↔ ∀ i < n, a i ≤ b i) ∧
    (vecGe n a b = true ↔ ∀ i < n, b i ≤ a i) :=
  ⟨vecEq_iff n a b, vecLt_iff n a b, vecGt_iff n a b,
    vecLe_iff n a b, vecGe_iff n a b⟩

/-- Witness for the amended C3 at concrete integer vectors. -/
theorem C3_aggregate_bool_comparisons_witness :
    vecLt 2 (lanes [1, 2]) (lanes [2, 3]) = true :=
  (C3_aggregate_bool_comparisons 2 (lanes [1, 2]) (lanes [2, 3])).2.1.mpr
    (by decide)

/-- Claim C4: over the literal lane values {1, 2, 3, 4}, the sum
reduction is 10, the product reduction is 24, the min reduction is 1
and the max reduction is 4, matching the scalar equivalents. -/
theorem C4_reductions_literal :
    vector.horizontal_sum 4 (lanes [1, 2, 3, 4]) = 10 ∧
    vector.horizontal_product 4 (lanes [1, 2, 3, 4]) = 24 ∧
    vector.min 4 (lanes [1, 2, 3, 4]) = 1 ∧
    vector.max 4 (lanes [1, 2, 3, 4]) = 4 := by
  decide

/-- Claim C5: applying the permute/shuffle operation with the identity
index sequence 0, 1, ..., n-1 reproduces every lane of the input
vector. -/
theorem C5_permute_identity {α : Type} (n : Nat) (v r0 : Nat → α)
    (i : Nat) (h : i < n) :
    permute n (fun j => j) v r0 i = v i := by
  simp [permute, fillLoop_get, h]

/-- Witness for C5 at the 2-lane integer vector {10, 20}. -/
theorem C5_permute_identity_witness :
    permute 2 (fun j => j) (lanes [10, 20]) zeroLanes 1 = 20 :=
  (C5_permute_identity 2 (lanes [10, 20]) zeroLanes 1 (by decide)).trans
    (by decide)

/-- Claim C6: constructing a vector from a std::array and converting it
back to a std::array reproduces every array element exactly. -/
theorem C6_array_round_trip {α : Type} (n : Nat) (arr r0 a0 : Nat → α)
    (i : Nat) (h : i < n) :
    toStdArray n (fromArray n arr r0) a0 i = arr i := by
  simp [toStdArray, fromArray, fillLoop_get, h]

/-- Witness for C6 at the 2-element integer array {8, 9}. -/
theorem C6_array_round_trip_witness :
    toStdArray 2 (fromArray 2 (lanes [8, 9]) zeroLanes) zeroLanes 0 = 8 :=
  (C6_array_round_trip 2 (lanes [8, 9]) zeroLanes zeroLanes 0
    (by decide)).trans (by decide)

/-- Claim C7 counterexample: integral elementwise division is not
defined on every pair of operands. At a = {1, 2}, b = {1, 0}, the lane
division 2 / 0 is undefined (the result lane is none), while the lane
with the nonzero divisor is fine. -/
theorem C7_zero_divisor_lane_undefined :
    vecDivZ 2 (lanes [1, 2]) (lanes [1, 0]) someZeroLanes 1 = none ∧
    vecDivZ 2 (lanes [1, 2]) (lanes [1, 0]) someZeroLanes 0 = some 1 ∧
    lanes [1, 0] 1 = 0 := by
  decide

/-- Claim C7 as amended: for integral element types, every lane of the
elementwise division whose divisor lane is nonzero is defined and
equals the truncated scalar quotient a[i] / b[i]. -/
theorem C7_division_defined_off_zero (n : Nat) (a b : Nat → Int)
    (r0 : Nat → Option Int) (i : Nat) (h : i < n) (hb : b i ≠ 0) :
    vecDivZ n a b r0 i = some ((a i).tdiv (b i)) := by
  simp [vecDivZ, fillLoop_get, h, intDivC, hb]

/-- Witness for the amended C7 at a = {7, 2}, b = {2, 1}, lane 0. -/
theorem C7_division_defined_off_zero_witness :
    vecDivZ 2 (lanes [7, 2]) (lanes [2, 1]) someZeroLanes 0 = some 3 :=
  (C7_division_defined_off_zero 2 (lanes [7, 2]) (lanes [2, 1])
    someZeroLanes 0 (by decide) (by decide)).trans (by decide)

/-- Claim C2, evaluated at the failing input: the scalar element access
path of the code, at the in-range index 0 of the vector with lanes
{-1, 7}, returns 4294967295 (the lane converted through u32 and then
widened to f64), not the stored lane value -1; and the access path is
a plain unchecked array read with no bounds-violation branch, so no
range fault exists to signal. -/
theorem C2_access_eval :
    opIndex (lanes [-1, 7]) 0 = 4294967295 ∧ lanes [-1, 7] 0 = -1 := by
  decide

/-- Claim C8: the read-only subscript returns the stored lane value
converted first to u32 and then exactly to f64: the result lies in
[0, 2^32), is congruent to the stored value modulo 2^32, and a lane
holding -1 yields 4294967295. -/
theorem C8_subscript_u32_conversion (v : Nat → Int) (i : Nat) :
    0 ≤ opIndex v i ∧ opIndex v i < 4294967296 ∧
    opIndex v i % 4294967296 = v i % 4294967296 ∧
    (v i = -1 → opIndex v i = 4294967295) := by
  have hpos : (0 : Int) < 4294967296 := by norm_num
  have hnn : 0 ≤ v i % 4294967296 := Int.emod_nonneg _ (by norm_num)
  have hval : opIndex v i = v i % 4294967296 := by
    simp [opIndex, extract_element, toU32, Int.toNat_of_nonneg hnn]
  refine ⟨hval ▸ hnn, ?_, ?_, ?_⟩
  · exact hval ▸ Int.emod_lt_of_pos _ hpos
  · rw [hval, Int.emod_emod_of_dvd _ dvd_rfl]
  · intro hv
    rw [hval, hv]
    decide

/-- Witness for C8 at the vector with lanes {-1, 7}, index 0: the lane
holding -1 reads back as 4294967295. -/
theorem C8_subscript_u32_conversion_witness :
    opIndex (lanes [-1, 7]) 0 = 4294967295 :=
  (C8_subscript_u32_conversion (lanes [-1, 7]) 0).2.2.2 (by decide)

/-- Claim C9: the non-member min and max select one whole operand: min
returns a when every lane of a is strictly less than the matching lane
of b, and otherwise returns b unchanged; symmetrically max with
strictly greater. -/
theorem C9_min_max_whole_operand {α : Type} [LinearOrder α] (n : Nat)
    (a b : Nat → α) :
    (vecLt n a b = true → scl.min n a b = a) ∧
    (vecLt n a b = false → scl.min n a b = b) ∧
    (vecLt n a b = true ↔ ∀ i < n, a i < b i) ∧
    (vecGt n a b = true → scl.max n a b = a) ∧
    (vecGt n a b = false → scl.max n a b = b) ∧
    (vecGt n a b = true ↔ ∀ i < n, b i < a i) := by
  refine ⟨?_, ?_, vecLt_iff n a b, ?_, ?_, vecGt_iff n a b⟩ <;>
    intro h <;> simp [scl.min, scl.max, h]

/-- Witness for C9 at a = {1, 5}, b = {2, 3}: min(a, b) is b = {2, 3}
whole, whose lane 0 is 2, not the elementwise minimum 1. -/
theorem C9_min_max_whole_operand_witness :
    scl.min 2 (lanes [1, 5]) (lanes [2, 3]) 0 = 2 ∧
    scl.min 2 (lanes [1, 5]) (lanes [2, 3]) 1 = 3 := by
  have h := (C9_min_max_whole_operand 2 (lanes [1, 5])
    (lanes [2, 3])).2.1 (by decide)
  rw [h]
  decide

/-- Claim C10: lane 3 of the 4D cross product is the expression
a[3]*b[3] - a[3]*b[3] of the source, hence zero for every pair of
operands under exact arithmetic on the lane values. -/
theorem C10_cross4_lane3_zero (a b : Nat → Int) :
    cross_product a b 3 =
      opIndex a 3 * opIndex b 3 - opIndex a 3 * opIndex b 3 ∧
    cross_product a b 3 = 0 := by
  constructor
  · rfl
  · simp [cross_product, mkVec4]

end scl
